import Mathlib

/-!
Verification development for the daily-report extraction service
(`part-2/daily-report-service`): a shallow embedding, in Lean, of the
structured (regex-based) pattern extractor, the LLM fallback extractor,
the conflict detector, the pipeline orchestrator and the single-flight
SQS consumer, together with theorems about the embedded code.

Strings are modelled as `List Char`; JavaScript regular-expression
matching is modelled by a small backtracking engine (`RE`, `searchFrom`,
`execAll`) whose semantics follow JS `RegExp`: leftmost match, greedy /
lazy quantifiers resolved by backtracking, alternation tried left to
right.  The quantifiers appearing in the source's patterns only range
over single-character classes, which the engine supports directly.
JavaScript numbers that can be `NaN` are modelled by `JsNum := Option
Int` (`none` = `NaN`).
-/

/-- JS `\s` (ASCII part, the only part exercised by this code base). -/
def isJsSpace (c : Char) : Bool :=
  c = ' ' || c = '\t' || c = '\n' || c = '\r' || c = '\x0b' || c = '\x0c'

/-- JS `String.prototype.trim`. -/
def jsTrim (s : List Char) : List Char :=
  ((s.dropWhile isJsSpace).reverse.dropWhile isJsSpace).reverse

/-- A regex character class: a set of single characters plus ranges,
possibly negated (`[^...]`). -/
structure CharClass where
  neg : Bool := false
  anyOf : List Char := []
  ranges : List (Char × Char) := []
deriving DecidableEq

/-- Membership of a character in a class; `ci` = case-insensitive flag
of the enclosing regex. -/
def CharClass.mem (ci : Bool) (cc : CharClass) (c : Char) : Bool :=
  let c := if ci then c.toLower else c
  let inSet :=
    cc.anyOf.any (fun a => (if ci then a.toLower else a) = c) ||
    cc.ranges.any (fun r => decide (r.1 ≤ c) && decide (c ≤ r.2))
  if cc.neg then !inSet else inSet

/-- Abstract syntax of the regexes used in the source.  Quantifiers
(`starC`, `plusC`, with a laziness flag) range over character classes
only, which covers every pattern in the source. -/
inductive RE where
  | eps : RE
  | lit : List Char → RE
  | cls : CharClass → RE
  | seq : RE → RE → RE
  | alt : RE → RE → RE
  | starC : Bool → CharClass → RE
  | plusC : Bool → CharClass → RE
  | opt : RE → RE
  | group : Nat → RE → RE
  | bos : RE
  | eos : RE

/-- Length of the longest run of characters of class `cc` at the head
of the input. -/
def maxRun (ci : Bool) (cc : CharClass) : List Char → Nat
  | [] => 0
  | c :: cs => if cc.mem ci c then maxRun ci cc cs + 1 else 0

/-- Captures: group index paired with the captured characters; the most
recent binding for an index shadows older ones. -/
abbrev Caps := List (Nat × List Char)

/-- Try continuation `k` after consuming `j` characters, for each `j`
in the given order (backtracking over quantifier lengths). -/
def tryConsume (rest : List Char) (pos : Nat) (caps : Caps)
    (k : List Char → Nat → Caps → Option (Nat × Caps)) :
    List Nat → Option (Nat × Caps)
  | [] => none
  | j :: js => (k (rest.drop j) (pos + j) caps) <|> tryConsume rest pos caps k js

/-- Case-insensitivity-aware prefix test for literals. -/
def litMatches (ci : Bool) : List Char → List Char → Bool
  | [], _ => true
  | _ :: _, [] => false
  | l :: ls, c :: cs =>
    (if ci then l.toLower = c.toLower else l = c) && litMatches ci ls cs

/-- The backtracking matcher, in continuation-passing style.  `rest` is
the input from the current position, `pos` the absolute position (for
the `^` anchor and capture bookkeeping), `k` the continuation receiving
the input after the piece matched.  Returns the end position and the
captures of the first (in backtracking order) overall success, exactly
as a JS regex engine would. -/
def runRE (ci : Bool) (re : RE) (rest : List Char) (pos : Nat) (caps : Caps)
    (k : List Char → Nat → Caps → Option (Nat × Caps)) : Option (Nat × Caps) :=
  match re with
  | .eps => k rest pos caps
  | .lit l => if litMatches ci l rest then k (rest.drop l.length) (pos + l.length) caps else none
  | .cls cc =>
    match rest with
    | [] => none
    | c :: cs => if cc.mem ci c then k cs (pos + 1) caps else none
  | .seq a b => runRE ci a rest pos caps (fun r p cp => runRE ci b r p cp k)
  | .alt a b => runRE ci a rest pos caps k <|> runRE ci b rest pos caps k
  | .starC lazyq cc =>
    let m := maxRun ci cc rest
    let order := if lazyq then List.range (m + 1) else (List.range (m + 1)).reverse
    tryConsume rest pos caps k order
  | .plusC lazyq cc =>
    let m := maxRun ci cc rest
    let order := if lazyq then (List.range m).map (· + 1)
                 else ((List.range m).map (· + 1)).reverse
    tryConsume rest pos caps k order
  | .opt r => runRE ci r rest pos caps k <|> k rest pos caps
  | .group i r =>
    runRE ci r rest pos caps (fun r2 p2 cp => k r2 p2 ((i, rest.take (p2 - pos)) :: cp))
  | .bos => if pos = 0 then k rest pos caps else none
  | .eos => match rest with | [] => k rest pos caps | _ :: _ => none

/-- Result of one regex match: start and end position, the matched
characters (`match[0]`) and the captures. -/
structure MatchResult where
  index : Nat
  stop : Nat
  matched : List Char
  groups : Caps
deriving DecidableEq

/-- Value of capture group `i` (JS `match[i]`, `none` = `undefined`). -/
def MatchResult.grp (m : MatchResult) (i : Nat) : Option (List Char) :=
  (m.groups.find? (fun g => g.1 = i)).map (·.2)

/-- Leftmost match at or after `pos` (JS `String.prototype.match` when
started at `pos = 0`, or one `exec` step from `lastIndex = pos`). -/
def searchFrom (ci : Bool) (re : RE) (rest : List Char) (pos : Nat) : Option MatchResult :=
  match runRE ci re rest pos [] (fun _ p cp => some (p, cp)) with
  | some (stop, caps) =>
    some { index := pos, stop := stop, matched := rest.take (stop - pos), groups := caps }
  | none =>
    match rest with
    | [] => none
    | _ :: rs => searchFrom ci re rs (pos + 1)

/-- Iterated matching: JS `while ((m = re.exec(s)) !== null)` on a `/g`
regex.  Each successive search starts at the previous match's end.  The
fuel bounds the number of matches; none of the source's global patterns
can match the empty string, so with fuel `|s| + 1` the Lean function
agrees with the JS loop. -/
def execAllAux (ci : Bool) (re : RE) : Nat → List Char → Nat → List MatchResult
  | 0, _, _ => []
  | fuel + 1, rest, pos =>
    match searchFrom ci re rest pos with
    | none => []
    | some m =>
      let consumed := max (m.stop - pos) 1
      m :: execAllAux ci re fuel (rest.drop consumed) (pos + consumed)

/-- All matches of a global regex, from the start of the input. -/
def execAll (ci : Bool) (re : RE) (s : List Char) : List MatchResult :=
  execAllAux ci re (s.length + 1) s 0

/-- Model of JS numbers in this code base: `none` is `NaN`. -/
abbrev JsNum := Option Int

/-- Addition, `NaN`-propagating. -/
def jsAdd : JsNum → JsNum → JsNum
  | some a, some b => some (a + b)
  | _, _ => none

/-- JS `x > 0` (false on `NaN`). -/
def jsGtZero : JsNum → Bool
  | some a => a > 0
  | none => false

/-- JS `x === 0` (false on `NaN`). -/
def jsEqZero : JsNum → Bool
  | some a => a = 0
  | none => false

/-- JS `a !== b` (true whenever either side is `NaN`). -/
def jsStrictNe : JsNum → JsNum → Bool
  | some a, some b => a ≠ b
  | _, _ => true

/-- Sum of a list of JS numbers (`Array.prototype.reduce` with `+`). -/
def jsSum (l : List JsNum) : JsNum := l.foldl jsAdd (some 0)

/-- JS `parseInt(s, 10)`: skip leading whitespace, optional sign, then
a nonempty digit prefix; `NaN` (`none`) otherwise. -/
def jsParseInt (s : List Char) : JsNum :=
  let s := s.dropWhile isJsSpace
  let (negSign, s) :=
    match s with
    | '-' :: t => (true, t)
    | '+' :: t => (false, t)
    | t => (false, t)
  let digits := s.takeWhile (fun c => '0' ≤ c && c ≤ '9')
  if digits.isEmpty then none
  else
    let v : Int := digits.foldl (fun a c => a * 10 + (c.toNat - '0'.toNat)) 0
    some (if negSign then -v else v)

/-- Rendering of a JS number inside a template literal. -/
def jsNumStr : JsNum → String
  | some n => toString n
  | none => "NaN"

/-- First-occurrence literal substring replacement by the empty string:
JS `text.replace(matched, "")` for a plain-string `matched`. -/
def replaceFirst (s pat : List Char) : List Char :=
  if pat.isEmpty then s
  else
    match s with
    | [] => []
    | c :: cs =>
      if pat.isPrefixOf s then s.drop pat.length
      else c :: replaceFirst cs pat

/-! Character classes and regexes of `structured-extractor.service.ts`
and `llm-extractor.service.ts`, transcribed pattern by pattern. -/

/-- Class `\s`. -/
def wsCls : CharClass := { anyOf := [' ', '\t', '\n', '\r', '\x0b', '\x0c'] }

/-- Class `\d`. -/
def digitCls : CharClass := { ranges := [('0', '9')] }

/-- Class `[:\s]`. -/
def colonWsCls : CharClass := { anyOf := ':' :: wsCls.anyOf }

/-- Class `[\s:\-]`. -/
def sepCls : CharClass := { anyOf := ':' :: '-' :: wsCls.anyOf }

/-- Class `[A-Za-z\s]`. -/
def letterWsCls : CharClass := { anyOf := wsCls.anyOf, ranges := [('A', 'Z'), ('a', 'z')] }

/-- Class `[A-Za-z\s&]`. -/
def nameCls : CharClass := { anyOf := '&' :: wsCls.anyOf, ranges := [('A', 'Z'), ('a', 'z')] }

/-- Class `[A-Za-z0-9\s]`. -/
def alnumWsCls : CharClass :=
  { anyOf := wsCls.anyOf, ranges := [('A', 'Z'), ('a', 'z'), ('0', '9')] }

/-- Class `[^\n]`. -/
def notNlCls : CharClass := { neg := true, anyOf := ['\n'] }

/-- Class `[^\n|]`. -/
def notNlPipeCls : CharClass := { neg := true, anyOf := ['\n', '|'] }

/-- Class `[fFcC]`. -/
def fcCls : CharClass := { anyOf := ['f', 'F', 'c', 'C'] }

/-- Class `[-\/]`. -/
def dashSlashCls : CharClass := { anyOf := ['-', '/'] }

/-- Class `[:\n]`. -/
def colonNlCls : CharClass := { anyOf := [':', '\n'] }

/-- Class `[|]`. -/
def pipeCls : CharClass := { anyOf := ['|'] }

/-- Sequencing of a list of regex pieces. -/
def rCat (l : List RE) : RE := l.foldr RE.seq RE.eps

/-- Left-to-right alternation of a head and further alternatives. -/
def rAlts (r : RE) (rs : List RE) : RE := rs.foldl RE.alt r

/-- Literal word. -/
def rW (s : String) : RE := RE.lit s.data

/-- The four section names. -/
inductive SectionName where
  | weather | manpower | workAreas | notes
deriving DecidableEq

/-- Header pattern for one section (`sectionPatterns` in the source),
e.g. `/(?:^|\n)\s*(?:weather|observed weather|weather conditions)\s*[:\n]/i`. -/
def headerRE : SectionName → RE
  | .weather => rCat [RE.alt RE.bos (rW "\n"), RE.starC false wsCls,
      rAlts (rW "weather") [rW "observed weather", rW "weather conditions"],
      RE.starC false wsCls, RE.cls colonNlCls]
  | .manpower => rCat [RE.alt RE.bos (rW "\n"), RE.starC false wsCls,
      rAlts (rW "manpower") [rW "workforce", rW "daily construction report", rW "labor"],
      RE.starC false wsCls, RE.cls colonNlCls]
  | .workAreas => rCat [RE.alt RE.bos (rW "\n"), RE.starC false wsCls,
      rAlts (rCat [rW "work", RE.starC false wsCls, rW "area", RE.opt (rW "s")])
        [rCat [rW "location", RE.opt (rW "s")],
         rCat [rW "site", RE.starC false wsCls, rW "area", RE.opt (rW "s")]],
      RE.starC false wsCls, RE.cls colonNlCls]
  | .notes => rCat [RE.alt RE.bos (rW "\n"), RE.starC false wsCls,
      rAlts (rCat [rW "note", RE.opt (rW "s")])
        [rCat [rW "observation", RE.opt (rW "s")],
         rCat [rW "comment", RE.opt (rW "s")],
         rCat [rW "remark", RE.opt (rW "s")]],
      RE.starC false wsCls, RE.cls colonNlCls]

/-- Pattern `/(?:high|max)[:\s]*(\d+)\s*°?[fFcC]?/i`. -/
def tempHighRE : RE := rCat [rAlts (rW "high") [rW "max"], RE.starC false colonWsCls,
  RE.group 1 (RE.plusC false digitCls), RE.starC false wsCls,
  RE.opt (rW "°"), RE.opt (RE.cls fcCls)]

/-- Pattern `/(?:low|min)[:\s]*(\d+)\s*°?[fFcC]?/i`. -/
def tempLowRE : RE := rCat [rAlts (rW "low") [rW "min"], RE.starC false colonWsCls,
  RE.group 1 (RE.plusC false digitCls), RE.starC false wsCls,
  RE.opt (rW "°"), RE.opt (RE.cls fcCls)]

/-- Pattern `/(\d+)\s*°?\s*[-\/]\s*(\d+)\s*°?[fFcC]?/` (case-sensitive). -/
def tempRangeRE : RE := rCat [RE.group 1 (RE.plusC false digitCls),
  RE.starC false wsCls, RE.opt (rW "°"), RE.starC false wsCls, RE.cls dashSlashCls,
  RE.starC false wsCls, RE.group 2 (RE.plusC false digitCls),
  RE.starC false wsCls, RE.opt (rW "°"), RE.opt (RE.cls fcCls)]

/-- Pattern `/(?:sky|conditions?|weather)[:\s]*([A-Za-z\s]+?)(?:\n|,|;|$)/i`. -/
def conditionsRE : RE := rCat [
  rAlts (rW "sky") [rCat [rW "condition", RE.opt (rW "s")], rW "weather"],
  RE.starC false colonWsCls, RE.group 1 (RE.plusC true letterWsCls),
  rAlts (rW "\n") [rW ",", rW ";", RE.eos]]

/-- Crew pattern `/([A-Za-z\s&]+?)[\s:\-]+(\d+)\s*(?:workers?|men|people|crew)/gi`. -/
def crew1RE : RE := rCat [RE.group 1 (RE.plusC true nameCls), RE.plusC false sepCls,
  RE.group 2 (RE.plusC false digitCls), RE.starC false wsCls,
  rAlts (rCat [rW "worker", RE.opt (rW "s")]) [rW "men", rW "people", rW "crew"]]

/-- Crew pattern `/([A-Za-z\s&]+?)\s*[|]\s*([A-Za-z\s]+?)\s*[|]\s*(\d+)/gi`. -/
def crew2RE : RE := rCat [RE.group 1 (RE.plusC true nameCls), RE.starC false wsCls,
  RE.cls pipeCls, RE.starC false wsCls, RE.group 2 (RE.plusC true letterWsCls),
  RE.starC false wsCls, RE.cls pipeCls, RE.starC false wsCls,
  RE.group 3 (RE.plusC false digitCls)]

/-- Pattern `/(?:total)[:\s]*(\d+)\s*(?:workers?|men|people)?/i`. -/
def totalRE : RE := rCat [rW "total", RE.starC false colonWsCls,
  RE.group 1 (RE.plusC false digitCls), RE.starC false wsCls,
  RE.opt (rAlts (rCat [rW "worker", RE.opt (rW "s")]) [rW "men", rW "people"])]

/-- Work-area pattern
`/([A-Za-z0-9\s]+?)[\s:\-]+\s*((?:in\s*progress|complete[d]?|pending|started|delayed|on\s*hold)[^\n]*)/gi`. -/
def area1RE : RE := rCat [RE.group 1 (RE.plusC true alnumWsCls), RE.plusC false sepCls,
  RE.starC false wsCls,
  RE.group 2 (rCat [
    rAlts (rCat [rW "in", RE.starC false wsCls, rW "progress"])
      [rCat [rW "complete", RE.opt (rW "d")], rW "pending", rW "started",
       rW "delayed", rCat [rW "on", RE.starC false wsCls, rW "hold"]],
    RE.starC false notNlCls])]

/-- Work-area pattern
`/([A-Za-z0-9\s]+?)\s*[|]\s*([A-Za-z\s]+?)(?:\s*[|]\s*([^\n|]+))?/gi`. -/
def area2RE : RE := rCat [RE.group 1 (RE.plusC true alnumWsCls), RE.starC false wsCls,
  RE.cls pipeCls, RE.starC false wsCls, RE.group 2 (RE.plusC true letterWsCls),
  RE.opt (rCat [RE.starC false wsCls, RE.cls pipeCls, RE.starC false wsCls,
    RE.group 3 (RE.plusC false notNlPipeCls)])]

/-- The four header patterns in declaration order (`Object.values`). -/
def allHeaderREs : List RE :=
  [headerRE .weather, headerRE .manpower, headerRE .workAreas, headerRE .notes]

/-- Transcription of `extractSectionText`: find the section's header,
then cut the body at the earliest following match of any header pattern
(or end of text), and trim it.  `null` becomes `none`. -/
def extractSectionText (pdfText : List Char) (sectionName : SectionName) :
    Option (List Char) :=
  match searchFrom true (headerRE sectionName) pdfText 0 with
  | none => none
  | some m =>
    let startIndex := m.index + m.matched.length
    let remainingText := pdfText.drop startIndex
    let endIndex := allHeaderREs.foldl
      (fun e re =>
        match searchFrom true re remainingText 0 with
        | some m2 => if m2.index < e then m2.index else e
        | none => e)
      remainingText.length
    some (jsTrim (remainingText.take endIndex))

/-- Transcription of `extractRemainingNotes`: delete the first
occurrence of each matched string (skipping `undefined` entries), then
trim. -/
def extractRemainingNotes (text : List Char)
    (matchedStrings : List (Option (List Char))) : List Char :=
  jsTrim (matchedStrings.foldl
    (fun remaining matched =>
      match matched with
      | some m => replaceFirst remaining m
      | none => remaining)
    text)


/-! Data model (`extraction-result.interface.ts`, `daily-report.schema.ts`). -/

/-- Confidence level for extracted section data. -/
inductive ExtractionConfidence where
  | high | medium | low
deriving DecidableEq

/-- Result of extracting a single section (`SectionExtractionResult<T>`);
`rawText` is optional, `data` nullable. -/
structure SectionExtractionResult (α : Type) where
  data : Option α
  confidence : ExtractionConfidence
  needsLlmFallback : Bool
  rawText : Option (List Char)
deriving DecidableEq

/-- Weather subdocument of `ExtractedData`. -/
structure WeatherData where
  conditions : List Char
  temperatureHigh : Int
  temperatureLow : Int
  notes : List Char
deriving DecidableEq

/-- One crew entry of the manpower data. -/
structure Crew where
  subcontractor : List Char
  trade : List Char
  count : JsNum
deriving DecidableEq

/-- Manpower subdocument of `ExtractedData`. -/
structure ManpowerData where
  totalWorkers : JsNum
  crews : List Crew
  notes : List Char
deriving DecidableEq

/-- One work-area entry. -/
structure WorkArea where
  name : List Char
  status : List Char
  notes : List Char
deriving DecidableEq

/-- The persisted `ExtractedData` shape: all four sections optional. -/
structure ExtractedData where
  weather : Option WeatherData := none
  manpower : Option ManpowerData := none
  workAreas : Option (List WorkArea) := none
  notes : Option (List Char) := none
deriving DecidableEq

/-- The `type` union of `ValidationWarning`. -/
inductive WarningType where
  | manpower_total_mismatch | weather_inconsistency | work_area_conflict
  | cross_section_conflict | other
deriving DecidableEq

/-- The `severity` union of `ValidationWarning`. -/
inductive Severity where
  | info | warning | error
deriving DecidableEq

/-- Validation warning from conflict detection. -/
structure ValidationWarning where
  type : WarningType
  message : String
  sections : List String
  severity : Severity
deriving DecidableEq

/-- Result of structured extraction before LLM processing. -/
structure StructuredExtractionResult where
  weather : SectionExtractionResult WeatherData
  manpower : SectionExtractionResult ManpowerData
  workAreas : SectionExtractionResult (List WorkArea)
  notes : SectionExtractionResult (List Char)
deriving DecidableEq

/-- Final extraction result (`ExtractionResult`).  The wall-clock
`metadata` timings of the source are not modelled. -/
structure ExtractionResult where
  data : ExtractedData
  warnings : List ValidationWarning
  llmFallbackSections : List String
  overallConfidence : ExtractionConfidence
deriving DecidableEq

/-- JS falsiness of `string | null | undefined`: null, undefined and
the empty string are falsy. -/
def jsFalsyOptStr : Option (List Char) → Bool
  | none => true
  | some s => s.isEmpty

/-- JS `x || undefined` on an optional string (empty string collapses
to `undefined`). -/
def jsStrOrUndef : Option (List Char) → Option (List Char)
  | none => none
  | some s => if s.isEmpty then none else some s

/-- JS `x || y` on numbers (`x` falsy when `0` or `NaN`). -/
def jsOrNum (a b : JsNum) : JsNum :=
  match a with
  | some v => if v = 0 then b else a
  | none => b

/-- JS `x || 0` on a number, as a plain integer. -/
def jsOrZeroInt : JsNum → Int
  | some v => v
  | none => 0

/-! The structured (pattern) extractor, `structured-extractor.service.ts`. -/

/-- The absent-section result
`{ data: null, confidence: LOW, needsLlmFallback: false, rawText: undefined }`. -/
def absentSection {α : Type} : SectionExtractionResult α :=
  { data := none, confidence := .low, needsLlmFallback := false, rawText := none }

/-- JS `Math.max` on two numbers (`NaN` absorbing). -/
def jsMax : JsNum → JsNum → JsNum
  | some a, some b => some (max a b)
  | _, _ => none

/-- JS `Math.min` on two numbers (`NaN` absorbing). -/
def jsMin : JsNum → JsNum → JsNum
  | some a, some b => some (min a b)
  | _, _ => none

/-- JS `x || 0` applied to a `number | undefined` variable (`undefined`,
`0` and `NaN` all collapse to `0`). -/
def jsNumOrZero : Option JsNum → Int
  | some (some v) => v
  | some none => 0
  | none => 0

/-- JS `match[i]?.trim() || "General"` (the crew `trade` field). -/
def tradeOf (g : Option (List Char)) : List Char :=
  match g.map jsTrim with
  | some t => if t.isEmpty then "General".data else t
  | none => "General".data

/-- Body of `extractWeather` after the missing-section guard.  The
`try` body of the source contains no throwing operation, so the `catch`
branch is dead code and has no counterpart here. -/
def weatherFromBody (sectionText : List Char) : SectionExtractionResult WeatherData :=
  let tempHighMatch := searchFrom true tempHighRE sectionText 0
  let tempLowMatch := searchFrom true tempLowRE sectionText 0
  let tempRangeMatch := searchFrom false tempRangeRE sectionText 0
  let temperatureHigh : Option JsNum :=
    match tempHighMatch with
    | some m => some (jsParseInt ((m.grp 1).getD []))
    | none =>
      match tempRangeMatch with
      | some m => some (jsMax (jsParseInt ((m.grp 1).getD [])) (jsParseInt ((m.grp 2).getD [])))
      | none => none
  let temperatureLow : Option JsNum :=
    match tempLowMatch with
    | some m => some (jsParseInt ((m.grp 1).getD []))
    | none =>
      match tempRangeMatch with
      | some m => some (jsMin (jsParseInt ((m.grp 1).getD [])) (jsParseInt ((m.grp 2).getD [])))
      | none => none
  let conditions : Option (List Char) :=
    match searchFrom true conditionsRE sectionText 0 with
    | some m => some (jsTrim ((m.grp 1).getD []))
    | none => none
  let notes := extractRemainingNotes sectionText
    [tempHighMatch.map (·.matched), tempLowMatch.map (·.matched),
     tempRangeMatch.map (·.matched),
     (searchFrom true conditionsRE sectionText 0).map (·.matched)]
  let hasTemperature := temperatureHigh.isSome || temperatureLow.isSome
  let hasConditions := conditions.isSome && !(conditions.getD []).isEmpty
  let cn : ExtractionConfidence × Bool :=
    if hasTemperature && hasConditions then (.high, false)
    else if hasTemperature || hasConditions then (.medium, false)
    else (.low, true)
  { data := some
      { conditions := conditions.getD []
        temperatureHigh := jsNumOrZero temperatureHigh
        temperatureLow := jsNumOrZero temperatureLow
        notes := notes }
    confidence := cn.1
    needsLlmFallback := cn.2
    rawText := some sectionText }

/-- Transcription of `extractWeather`. -/
def extractWeather (pdfText : List Char) : SectionExtractionResult WeatherData :=
  let sectionText := extractSectionText pdfText .weather
  if jsFalsyOptStr sectionText then absentSection
  else weatherFromBody (sectionText.getD [])

/-- Crew built from a match of the first crew pattern
(`match.length = 3`: `trade` ends up being the digit string, and the
count falls back to `parseInt(match[2])`, the same digits). -/
def crewOfMatch1 (m : MatchResult) : Crew :=
  let g2 := (m.grp 2).getD []
  { subcontractor := jsTrim ((m.grp 1).getD [])
    trade := tradeOf (m.grp 2)
    count := jsOrNum (jsParseInt g2) (jsParseInt g2) }

/-- Crew built from a match of the second (pipe-table) crew pattern
(`match.length = 4`). -/
def crewOfMatch2 (m : MatchResult) : Crew :=
  { subcontractor := jsTrim ((m.grp 1).getD [])
    trade := tradeOf (m.grp 2)
    count := jsOrNum (jsParseInt ((m.grp 3).getD [])) (jsParseInt ((m.grp 2).getD [])) }

/-- All crews parsed from a manpower section body: both global crew
patterns, run in source order, matches appended in match order. -/
def crewsOf (sectionText : List Char) : List Crew :=
  (execAll true crew1RE sectionText).map crewOfMatch1 ++
  (execAll true crew2RE sectionText).map crewOfMatch2

/-- Body of `extractManpower` after the missing-section guard (the
`try` body cannot throw; see `weatherFromBody`). -/
def manpowerFromBody (sectionText : List Char) : SectionExtractionResult ManpowerData :=
  let crews := crewsOf sectionText
  let totalMatch := searchFrom true totalRE sectionText 0
  let totalWorkers0 : JsNum :=
    match totalMatch with
    | some m => jsParseInt ((m.grp 1).getD [])
    | none => some 0
  let totalWorkers : JsNum :=
    if jsEqZero totalWorkers0 && decide (0 < crews.length) then
      jsSum (crews.map Crew.count)
    else totalWorkers0
  let notes := extractRemainingNotes sectionText [totalMatch.map (·.matched)]
  let cn : ExtractionConfidence × Bool :=
    if decide (0 < crews.length) || jsGtZero totalWorkers then
      (if decide (0 < crews.length) then (.high, false) else (.medium, false))
    else (.low, true)
  { data := some { totalWorkers := totalWorkers, crews := crews, notes := notes }
    confidence := cn.1
    needsLlmFallback := cn.2
    rawText := some sectionText }

/-- Transcription of `extractManpower`. -/
def extractManpower (pdfText : List Char) : SectionExtractionResult ManpowerData :=
  let sectionText := extractSectionText pdfText .manpower
  if jsFalsyOptStr sectionText then absentSection
  else manpowerFromBody (sectionText.getD [])

/-- Work-area accumulation: push each match's `{name, status, notes}`
unless the name is empty, the status is empty, or the name was already
seen (first occurrence wins). -/
def workAreasOf (sectionText : List Char) : List WorkArea :=
  let ms := execAll true area1RE sectionText ++ execAll true area2RE sectionText
  ms.foldl
    (fun acc m =>
      let name := jsTrim ((m.grp 1).getD [])
      let status := jsTrim ((m.grp 2).getD [])
      let notes := ((m.grp 3).map jsTrim).getD []
      if !name.isEmpty && !status.isEmpty && !(acc.any (fun wa => wa.name = name)) then
        acc ++ [{ name := name, status := status, notes := notes }]
      else acc)
    []

/-- Body of `extractWorkAreas` after the missing-section guard. -/
def workAreasFromBody (sectionText : List Char) : SectionExtractionResult (List WorkArea) :=
  let workAreas := workAreasOf sectionText
  let cn : ExtractionConfidence × Bool :=
    if decide (0 < workAreas.length) then (.high, false) else (.low, true)
  { data := if decide (0 < workAreas.length) then some workAreas else none
    confidence := cn.1
    needsLlmFallback := cn.2
    rawText := some sectionText }

/-- Transcription of `extractWorkAreas`. -/
def extractWorkAreas (pdfText : List Char) : SectionExtractionResult (List WorkArea) :=
  let sectionText := extractSectionText pdfText .workAreas
  if jsFalsyOptStr sectionText then absentSection
  else workAreasFromBody (sectionText.getD [])

/-- Transcription of `extractNotes`. -/
def extractNotes (pdfText : List Char) : SectionExtractionResult (List Char) :=
  let sectionText := extractSectionText pdfText .notes
  if jsFalsyOptStr sectionText then absentSection
  else
    let st := sectionText.getD []
    let notes := jsTrim st
    { data := if decide (0 < notes.length) then some notes else none
      confidence := if decide (10 < notes.length) then .high else .medium
      needsLlmFallback := false
      rawText := some st }

/-- Transcription of `StructuredExtractorService.extract`. -/
def extract (pdfText : List Char) : StructuredExtractionResult :=
  { weather := extractWeather pdfText
    manpower := extractManpower pdfText
    workAreas := extractWorkAreas pdfText
    notes := extractNotes pdfText }

/-! The LLM fallback extractor and conflict detector,
`llm-extractor.service.ts`.  The model transport is external; one call
to it is modelled by its observable outcome. -/

/-- Outcome of one `chat.completions.create` call followed by the
source's handling: the transport threw; the response content was empty
(`!content`, which the source turns into a thrown-then-caught error);
the content was not parseable JSON; or it parsed, with `parsed.data`
possibly `null`/absent. -/
inductive LlmResponse (α : Type) where
  | transportError
  | emptyContent
  | malformed
  | parsed (data : Option α)
deriving DecidableEq

/-- Transcription of `LlmExtractorService.extractSection`: a parsed
response yields `MEDIUM` confidence with whatever `parsed.data` held;
every failure is caught and yields the terminal
`{ data: null, confidence: LOW, needsLlmFallback: false }` result.  The
function is total: it never throws. -/
def extractSection {α : Type} (response : LlmResponse α) (rawText : List Char) :
    SectionExtractionResult α :=
  match response with
  | .parsed d =>
    { data := d, confidence := .medium, needsLlmFallback := false, rawText := some rawText }
  | _ =>
    { data := none, confidence := .low, needsLlmFallback := false, rawText := some rawText }

/-- The mismatch warning pushed by `checkProgrammaticConflicts`. -/
def mismatchWarning (totalWorkers : JsNum) (crewSum : Int) : ValidationWarning :=
  { type := .manpower_total_mismatch
    message := "Manpower total (" ++ jsNumStr totalWorkers ++
      ") does not match sum of crews (" ++ toString crewSum ++ ")"
    sections := ["manpower"]
    severity := .warning }

/-- Transcription of `checkProgrammaticConflicts` (the deterministic
phase of conflict detection): with manpower present, compare
`totalWorkers` against `crews.reduce((sum, crew) => sum + crew.count, 0) || 0`
and warn only when both are positive and differ. -/
def checkProgrammaticConflicts (extractedData : ExtractedData) : List ValidationWarning :=
  match extractedData.manpower with
  | none => []
  | some mp =>
    let crewSum : Int := jsOrZeroInt (jsSum (mp.crews.map Crew.count))
    if jsGtZero mp.totalWorkers && decide (0 < crewSum) &&
        jsStrictNe mp.totalWorkers (some crewSum) then
      [mismatchWarning mp.totalWorkers crewSum]
    else []

/-- Outcome of the semantic-conflict model call (same boundary shape as
`LlmResponse`, with `parsed.conflicts` possibly absent). -/
inductive LlmConflictsResponse where
  | transportError
  | emptyContent
  | malformed
  | parsed (conflicts : Option (List ValidationWarning))
deriving DecidableEq

/-- Transcription of `detectSemanticConflicts`: skipped when weather,
manpower and notes are all falsy; every failure path returns `[]`;
a parsed response contributes `parsed.conflicts || []`. -/
def detectSemanticConflicts (response : LlmConflictsResponse)
    (extractedData : ExtractedData) : List ValidationWarning :=
  if extractedData.weather = none && extractedData.manpower = none &&
      jsFalsyOptStr extractedData.notes then []
  else
    match response with
    | .parsed (some conflicts) => conflicts
    | .parsed none => []
    | _ => []

/-- Transcription of `detectConflicts`: programmatic warnings first,
then semantic ones. -/
def detectConflicts (response : LlmConflictsResponse)
    (extractedData : ExtractedData) : List ValidationWarning :=
  checkProgrammaticConflicts extractedData ++
  detectSemanticConflicts response extractedData

/-! The pipeline orchestrator and SQS consumer, `extraction.service.ts`. -/

/-- The language-model collaborator, as seen by one pipeline run: the
outcome of each per-section fallback call and of the semantic-conflict
call. -/
structure LlmOracle where
  weather : List Char → LlmResponse WeatherData
  manpower : List Char → LlmResponse ManpowerData
  workAreas : List Char → LlmResponse (List WorkArea)
  conflicts : ExtractedData → LlmConflictsResponse

/-- Transcription of `runLlmFallback`: for each of weather, manpower
and work areas, call the LLM fallback exactly when the structured
result is flagged and has a truthy `rawText`, otherwise carry the
structured data forward; notes never fall back. -/
def runLlmFallback (structuredResult : StructuredExtractionResult) (o : LlmOracle) :
    ExtractedData × List String :=
  let wFall := structuredResult.weather.needsLlmFallback &&
    !jsFalsyOptStr structuredResult.weather.rawText
  let mFall := structuredResult.manpower.needsLlmFallback &&
    !jsFalsyOptStr structuredResult.manpower.rawText
  let aFall := structuredResult.workAreas.needsLlmFallback &&
    !jsFalsyOptStr structuredResult.workAreas.rawText
  let weather :=
    if wFall then
      let raw := structuredResult.weather.rawText.getD []
      (extractSection (o.weather raw) raw).data
    else structuredResult.weather.data
  let manpower :=
    if mFall then
      let raw := structuredResult.manpower.rawText.getD []
      (extractSection (o.manpower raw) raw).data
    else structuredResult.manpower.data
  let workAreas :=
    if aFall then
      let raw := structuredResult.workAreas.rawText.getD []
      (extractSection (o.workAreas raw) raw).data
    else structuredResult.workAreas.data
  let llmFallbackSections :=
    (if wFall then ["weather"] else []) ++
    (if mFall then ["manpower"] else []) ++
    (if aFall then ["workAreas"] else [])
  ({ weather := weather
     manpower := manpower
     workAreas := workAreas
     notes := jsStrOrUndef structuredResult.notes.data },
   llmFallbackSections)

/-- Transcription of `calculateOverallConfidence`: counts over the four
confidences of the *structured* extraction result it is handed. -/
def calculateOverallConfidence (structuredResult : StructuredExtractionResult) :
    ExtractionConfidence :=
  let confidences := [structuredResult.weather.confidence,
    structuredResult.manpower.confidence,
    structuredResult.workAreas.confidence,
    structuredResult.notes.confidence]
  let lowCount := (confidences.filter (fun c => c = .low)).length
  let highCount := (confidences.filter (fun c => c = .high)).length
  if 2 ≤ lowCount then .low
  else if 3 ≤ highCount then .high
  else .medium

/-- Transcription of `runExtractionPipeline`, with the PDF text (the
external `PdfParserService.extractText` result) passed in and the
wall-clock metadata omitted.  Note the source hands
`calculateOverallConfidence` the pre-fallback `structuredResult`. -/
def runExtractionPipeline (pdfText : List Char) (o : LlmOracle) : ExtractionResult :=
  let structuredResult := extract pdfText
  let fb := runLlmFallback structuredResult o
  let warnings := detectConflicts (o.conflicts fb.1) fb.1
  let overallConfidence := calculateOverallConfidence structuredResult
  { data := fb.1
    warnings := warnings
    llmFallbackSections := fb.2
    overallConfidence := overallConfidence }

/-- Job status enum (`report-status.enum.ts`). -/
inductive ReportStatus where
  | pending | processing | completed | failed
deriving DecidableEq

/-- The queue message payload the consumer cares about
(`processing-message.interface.ts`; remaining fields are labels). -/
structure ProcessingMessage where
  reportId : String
  s3Key : String
deriving DecidableEq

/-- Result of `JSON.parse` on the message body. -/
inductive BodyParse where
  | notJson
  | ok (m : ProcessingMessage)
deriving DecidableEq

/-- An SQS message as the consumer sees it: both `Body` and
`ReceiptHandle` are optional in the SDK type. -/
structure QueueMessage where
  body : Option BodyParse
  receiptHandle : Option String
deriving DecidableEq

/-- Observable external actions of the consumer, in order: flag writes,
the queue receive call, MongoDB status/result updates, and queue
deletions. -/
inductive ConsumerEvent where
  | setBusy (b : Bool)
  | receiveCall
  | statusUpdate (reportId : String) (status : ReportStatus)
  | extractionUpdate (reportId : String) (d : ExtractedData)
  | deleteCall (receiptHandle : String)
deriving DecidableEq

/-- Transcription of `processMessage` as the sequence of external
actions it performs.  The persistence and queue-deletion collaborators
are modelled by their contracts (they succeed); `pipe` is the outcome
of `runExtractionPipeline` — `error` means some pipeline stage threw,
and the `catch` block then records `FAILED` and skips the deletion. -/
def processMessage (msg : QueueMessage) (pipe : Except Unit ExtractionResult) :
    List ConsumerEvent :=
  match msg.body, msg.receiptHandle with
  | some bodyParse, some receiptHandle =>
    match bodyParse with
    | .notJson => []
    | .ok pm =>
      ConsumerEvent.statusUpdate pm.reportId .processing ::
      (match pipe with
       | .ok result =>
         [ConsumerEvent.extractionUpdate pm.reportId result.data,
          ConsumerEvent.deleteCall receiptHandle]
       | .error _ =>
         [ConsumerEvent.statusUpdate pm.reportId .failed])
  | _, _ => []

/-- Transcription of `pollQueue` for one timer tick: the reentrancy
guard drops the tick when `isProcessing` is already set; otherwise the
flag is raised, the receive call made (its outcome possibly a thrown,
caught error), each received message processed, and the flag cleared in
the `finally` block.  Returns the performed events and the final value
of `isProcessing`. -/
def pollQueue (isProcessing : Bool) (recv : Except Unit (List QueueMessage))
    (pipeOf : QueueMessage → Except Unit ExtractionResult) :
    List ConsumerEvent × Bool :=
  if isProcessing then ([], isProcessing)
  else
    let body :=
      match recv with
      | .error _ => [ConsumerEvent.receiveCall]
      | .ok msgs =>
        ConsumerEvent.receiveCall ::
        msgs.flatMap (fun m => processMessage m (pipeOf m))
    (ConsumerEvent.setBusy true :: body ++ [ConsumerEvent.setBusy false], false)

set_option maxRecDepth 100000

/-! Spec-side definitions and the claim theorems. -/

/-- Modelled from the spec (§4.4): the four *final* (post-fallback)
section confidences — for a section that invoked the Fallback
Extractor, the confidence of the fallback result; otherwise the Pattern
Extractor's confidence.  Notes never fall back. -/
def specFinalConfidences (pdfText : List Char) (o : LlmOracle) :
    List ExtractionConfidence :=
  let s := extract pdfText
  let wFall := s.weather.needsLlmFallback && !jsFalsyOptStr s.weather.rawText
  let mFall := s.manpower.needsLlmFallback && !jsFalsyOptStr s.manpower.rawText
  let aFall := s.workAreas.needsLlmFallback && !jsFalsyOptStr s.workAreas.rawText
  [if wFall then
      (extractSection (o.weather (s.weather.rawText.getD []))
        (s.weather.rawText.getD [])).confidence
    else s.weather.confidence,
   if mFall then
      (extractSection (o.manpower (s.manpower.rawText.getD []))
        (s.manpower.rawText.getD [])).confidence
    else s.manpower.confidence,
   if aFall then
      (extractSection (o.workAreas (s.workAreas.rawText.getD []))
        (s.workAreas.rawText.getD [])).confidence
    else s.workAreas.confidence,
   s.notes.confidence]

/-- Modelled from the spec (§4.4): "if at least two are LOW, overall is
LOW; else if at least three are HIGH, overall is HIGH; else MEDIUM". -/
def specOverallRule (confidences : List ExtractionConfidence) : ExtractionConfidence :=
  if 2 ≤ confidences.count .low then .low
  else if 3 ≤ confidences.count .high then .high
  else .medium

/-- Modelled from the spec (§4.4): overall confidence over the final
post-fallback section confidences. -/
def specOverallConfidence (pdfText : List Char) (o : LlmOracle) : ExtractionConfidence :=
  specOverallRule (specFinalConfidences pdfText o)

/-- An input whose structured extraction yields confidences
`[LOW+fallback, LOW+fallback, HIGH, HIGH]`. -/
def c1Text : List Char :=
  "Weather:\nNice day today\nManpower:\nSeveral subs on site\nWork Areas:\nBuilding A: In Progress\nNotes:\nEverything went well today".data

/-- Weather data returned by the model in the C1 scenario. -/
def c1WeatherData : WeatherData :=
  { conditions := "Clear".data, temperatureHigh := 70, temperatureLow := 50, notes := [] }

/-- Manpower data returned by the model in the C1 scenario. -/
def c1ManpowerData : ManpowerData :=
  { totalWorkers := some 4
    crews := [{ subcontractor := "Sub A".data, trade := "General".data, count := some 4 }]
    notes := [] }

/-- An oracle whose fallback calls all succeed with parseable data. -/
def c1Oracle : LlmOracle where
  weather := fun _ => .parsed (some c1WeatherData)
  manpower := fun _ => .parsed (some c1ManpowerData)
  workAreas := fun _ => .parsed none
  conflicts := fun _ => .parsed (some [])

/-- C1, counterexample.  On `c1Text` the weather and manpower sections
are LOW and fall back; both fallbacks succeed, so their final
(post-fallback) confidences are MEDIUM and the spec's post-fallback
rule gives MEDIUM overall — but the pipeline reports LOW, because the
source hands `calculateOverallConfidence` the pre-fallback structured
confidences.  This refutes the claim that the overall confidence is
computed from the four final post-fallback confidences. -/
theorem c1_counterexample :
    (runExtractionPipeline c1Text c1Oracle).overallConfidence = .low ∧
    specOverallConfidence c1Text c1Oracle = .medium ∧
    (runExtractionPipeline c1Text c1Oracle).llmFallbackSections = ["weather", "manpower"] := by
  decide

/-- C1, amended.  For every job the overall confidence is computed by
the two-LOW / three-HIGH / otherwise-MEDIUM rule over the four
*pre-fallback* structured section confidences; it is independent of the
language-model oracle, so a section whose confidence the fallback
changed contributes its pre-fallback confidence to the aggregate. -/
theorem c1_overall_from_structured (pdfText : List Char) (o : LlmOracle) :
    (runExtractionPipeline pdfText o).overallConfidence =
      specOverallRule [(extract pdfText).weather.confidence,
        (extract pdfText).manpower.confidence,
        (extract pdfText).workAreas.confidence,
        (extract pdfText).notes.confidence] := by
  have h : (runExtractionPipeline pdfText o).overallConfidence =
      calculateOverallConfidence (extract pdfText) := rfl
  rw [h]
  simp only [calculateOverallConfidence, specOverallRule]
  generalize (extract pdfText).weather.confidence = cw
  generalize (extract pdfText).manpower.confidence = cm
  generalize (extract pdfText).workAreas.confidence = ca
  generalize (extract pdfText).notes.confidence = cn
  cases cw <;> cases cm <;> cases ca <;> cases cn <;> decide

/-- The per-section invariant of the spec: a result flagged for
fallback is LOW, and a HIGH result is never flagged. -/
def sectionInv {α : Type} (r : SectionExtractionResult α) : Prop :=
  (r.needsLlmFallback = true → r.confidence = .low) ∧
  (r.confidence = .high → r.needsLlmFallback = false)

theorem sectionInv_weatherFromBody (s : List Char) : sectionInv (weatherFromBody s) := by
  unfold weatherFromBody sectionInv
  dsimp only
  split
  · simp
  · split <;> simp

theorem sectionInv_extractWeather (pdfText : List Char) : sectionInv (extractWeather pdfText) := by
  simp only [extractWeather]
  split
  · exact ⟨by simp [absentSection], by simp [absentSection]⟩
  · exact sectionInv_weatherFromBody _

theorem sectionInv_manpowerFromBody (s : List Char) : sectionInv (manpowerFromBody s) := by
  unfold manpowerFromBody sectionInv
  dsimp only
  split <;> split <;> (try split) <;> simp

theorem sectionInv_extractManpower (pdfText : List Char) : sectionInv (extractManpower pdfText) := by
  simp only [extractManpower]
  split
  · exact ⟨by simp [absentSection], by simp [absentSection]⟩
  · exact sectionInv_manpowerFromBody _

theorem sectionInv_workAreasFromBody (s : List Char) : sectionInv (workAreasFromBody s) := by
  unfold workAreasFromBody sectionInv
  dsimp only
  split <;> simp

theorem sectionInv_extractWorkAreas (pdfText : List Char) : sectionInv (extractWorkAreas pdfText) := by
  simp only [extractWorkAreas]
  split
  · exact ⟨by simp [absentSection], by simp [absentSection]⟩
  · exact sectionInv_workAreasFromBody _

theorem sectionInv_extractNotes (pdfText : List Char) : sectionInv (extractNotes pdfText) := by
  simp only [extractNotes]
  split
  · exact ⟨by simp [absentSection], by simp [absentSection]⟩
  · exact ⟨by simp, by simp⟩

/-- C2.  Every per-section result produced by the Pattern Extractor
(any input text, each of the four sections) and every result of the
Fallback Extractor satisfies the invariant: `needsFallback = true`
implies confidence LOW, and confidence HIGH implies
`needsFallback = false`. -/
theorem c2_invariant :
    (∀ pdfText : List Char,
      sectionInv (extract pdfText).weather ∧ sectionInv (extract pdfText).manpower ∧
      sectionInv (extract pdfText).workAreas ∧ sectionInv (extract pdfText).notes) ∧
    (∀ (α : Type) (response : LlmResponse α) (rawText : List Char),
      sectionInv (extractSection response rawText)) := by
  constructor
  · intro pdfText
    exact ⟨sectionInv_extractWeather _, sectionInv_extractManpower _,
      sectionInv_extractWorkAreas _, sectionInv_extractNotes _⟩
  · intro α response rawText
    cases response <;> exact ⟨by simp [extractSection], by simp [extractSection]⟩

/-- C2, witness: a weather section made of prose is flagged for
fallback, and the invariant then forces its confidence to LOW. -/
theorem c2_witness :
    (extract "Weather:\nNice day today".data).weather.confidence = .low :=
  (c2_invariant.1 "Weather:\nNice day today".data).1.1 (by decide)

/-- C3.  For a successfully parsed queue message: when the pipeline
completes, the consumer records PROCESSING, then writes the extracted
data together with status COMPLETED, and only after that single write
deletes the queue message; when any pipeline stage throws, it records
FAILED and performs no deletion. -/
theorem c3_job_lifecycle (pm : ProcessingMessage) (receiptHandle : String)
    (pipe : Except Unit ExtractionResult) :
    (∀ result, pipe = .ok result →
      processMessage ⟨some (.ok pm), some receiptHandle⟩ pipe =
        [.statusUpdate pm.reportId .processing,
         .extractionUpdate pm.reportId result.data,
         .deleteCall receiptHandle]) ∧
    (∀ e, pipe = .error e →
      processMessage ⟨some (.ok pm), some receiptHandle⟩ pipe =
        [.statusUpdate pm.reportId .processing, .statusUpdate pm.reportId .failed] ∧
      ∀ h, ConsumerEvent.deleteCall h ∉ processMessage ⟨some (.ok pm), some receiptHandle⟩ pipe) := by
  constructor
  · intro result hok
    subst hok
    rfl
  · intro e herr
    subst herr
    exact ⟨rfl, by intro h hmem; simp [processMessage] at hmem⟩

/-- C3, witness: both lifecycle outcomes at a concrete message. -/
theorem c3_witness :
    processMessage ⟨some (.ok ⟨"r1", "k1"⟩), some "rh"⟩
        (.ok { data := {}, warnings := [], llmFallbackSections := [],
               overallConfidence := .high }) =
      [.statusUpdate "r1" .processing,
       .extractionUpdate "r1" ({} : ExtractedData),
       .deleteCall "rh"] ∧
    processMessage ⟨some (.ok ⟨"r1", "k1"⟩), some "rh"⟩ (.error ()) =
      [.statusUpdate "r1" .processing, .statusUpdate "r1" .failed] :=
  ⟨(c3_job_lifecycle ⟨"r1", "k1"⟩ "rh" _).1 _ rfl,
   ((c3_job_lifecycle ⟨"r1", "k1"⟩ "rh" _).2 () rfl).1⟩

/-- C4.  A timer tick arriving while a prior poll is in flight performs
zero operations and leaves the state unchanged; a tick arriving while
idle raises the busy flag first, and the flag is false again at the end
of the cycle for every receive outcome (including a thrown receive) and
every processing outcome. -/
theorem c4_single_flight (recv : Except Unit (List QueueMessage))
    (pipeOf : QueueMessage → Except Unit ExtractionResult) :
    pollQueue true recv pipeOf = ([], true) ∧
    (pollQueue false recv pipeOf).2 = false ∧
    ∃ body, pollQueue false recv pipeOf =
      (ConsumerEvent.setBusy true :: body ++ [ConsumerEvent.setBusy false], false) := by
  refine ⟨rfl, rfl, ?_⟩
  cases recv with
  | error e => exact ⟨[ConsumerEvent.receiveCall], rfl⟩
  | ok msgs =>
    exact ⟨ConsumerEvent.receiveCall ::
      msgs.flatMap (fun m => processMessage m (pipeOf m)), rfl⟩

/-- JS strict inequality against a plain number, in propositional form. -/
theorem jsStrictNe_some_iff (a : JsNum) (b : Int) : jsStrictNe a (some b) = true ↔ a ≠ some b := by
  cases a <;> simp [jsStrictNe]

/-- Manpower data with an explicit total of 5 and a non-empty crew list whose counts sum to 0. -/
def c5Mp : ManpowerData :=
  { totalWorkers := some 5
    crews := [{ subcontractor := "ABC".data, trade := "Electrical".data, count := some 0 }]
    notes := [] }

/-- Aggregate dataset for the C5 counterexample. -/
def c5Data : ExtractedData := { manpower := some c5Mp }

/-- C5, counterexample.  `c5Data` has manpower present, an explicit
total of 5 and a non-empty crew list, and the total differs from the
crew-count sum (5 vs 0) — yet the deterministic phase emits no warning,
because the source also requires the crew sum to be positive
(`crewSum > 0`).  This refutes the claim that exactly one mismatch
warning is emitted whenever the total differs from the crew sum. -/
theorem c5_counterexample :
    (c5Data.manpower.map (fun mp => mp.crews.length)) = some 1 ∧
    (c5Data.manpower.map (fun mp => mp.totalWorkers)) = some (some 5) ∧
    (c5Data.manpower.map (fun mp => jsSum (mp.crews.map Crew.count))) = some (some 0) ∧
    checkProgrammaticConflicts c5Data = [] := by decide

/-- C5, amended.  With manpower present, the deterministic phase emits
exactly one `manpower_total_mismatch` warning (the spec's
`workforce_total_mismatch`), severity `warning`, precisely when the
total is positive, the crew-count sum is positive, and the two differ;
otherwise it emits none. -/
theorem c5_mismatch_rule (ed : ExtractedData) (mp : ManpowerData)
    (hmp : ed.manpower = some mp) :
    (checkProgrammaticConflicts ed ≠ [] ↔
      (jsGtZero mp.totalWorkers = true ∧
       0 < jsOrZeroInt (jsSum (mp.crews.map Crew.count)) ∧
       mp.totalWorkers ≠ some (jsOrZeroInt (jsSum (mp.crews.map Crew.count))))) ∧
    (checkProgrammaticConflicts ed).length ≤ 1 ∧
    (∀ w ∈ checkProgrammaticConflicts ed,
      w.type = .manpower_total_mismatch ∧ w.severity = .warning) := by
  unfold checkProgrammaticConflicts
  rw [hmp]
  dsimp only
  split
  next hcond =>
    have hc : jsGtZero mp.totalWorkers = true ∧
        0 < jsOrZeroInt (jsSum (mp.crews.map Crew.count)) ∧
        mp.totalWorkers ≠ some (jsOrZeroInt (jsSum (mp.crews.map Crew.count))) := by
      simp only [Bool.and_eq_true, decide_eq_true_eq, jsStrictNe_some_iff] at hcond
      exact ⟨hcond.1.1, hcond.1.2, hcond.2⟩
    refine ⟨Iff.intro (fun _ => hc) (fun _ => by simp), by simp, ?_⟩
    intro w hw
    have hww : w = mismatchWarning mp.totalWorkers
        (jsOrZeroInt (jsSum (mp.crews.map Crew.count))) := by simpa using hw
    subst hww
    exact ⟨rfl, rfl⟩
  next hcond =>
    refine ⟨Iff.intro (fun h => absurd rfl h) (fun hr => ?_), by simp, by simp⟩
    exact absurd (by
      simp only [Bool.and_eq_true, decide_eq_true_eq, jsStrictNe_some_iff]
      exact ⟨⟨hr.1, hr.2.1⟩, hr.2.2⟩) hcond

/-- The spec's own example: total 10 with crews summing to 5. -/
def c5WitnessMp : ManpowerData :=
  { totalWorkers := some 10
    crews := [{ subcontractor := "ABC".data, trade := "Electrical".data, count := some 3 },
              { subcontractor := "XYZ".data, trade := "Plumbing".data, count := some 2 }]
    notes := [] }

/-- Aggregate dataset for the C5 witness. -/
def c5WitnessData : ExtractedData := { manpower := some c5WitnessMp }

/-- C5, witness: total 10 against a crew sum of 5 produces exactly one
warning. -/
theorem c5_witness :
    checkProgrammaticConflicts c5WitnessData ≠ [] ∧
    (checkProgrammaticConflicts c5WitnessData).length = 1 :=
  ⟨(c5_mismatch_rule c5WitnessData c5WitnessMp rfl).1.mpr ⟨by decide, by decide, by decide⟩,
   by decide⟩


/-- C6, counterexample.  A well-formed, parseable response whose `data`
field is null still yields confidence MEDIUM (with `data` absent) — the
source assigns MEDIUM on every successful parse without inspecting
`parsed.data`.  This refutes the "exactly when ... non-null data" part
of the claim. -/
theorem c6_counterexample :
    extractSection (LlmResponse.parsed (none : Option WeatherData)) "raw".data =
      { data := none, confidence := .medium, needsLlmFallback := false,
        rawText := some "raw".data } ∧
    ExtractionConfidence.medium ≠ ExtractionConfidence.low := by
  exact ⟨rfl, by decide⟩

/-- C6, amended.  The Fallback Extractor returns confidence MEDIUM with
`needsFallback = false` exactly when the model call yields a
well-formed, parseable response (its `data`, possibly null, is passed
through); on an empty response, malformed JSON, or transport error it
returns `data` absent, confidence LOW, `needsFallback = false`.  It is
a total function — it never throws — and never re-flags fallback. -/
theorem c6_fallback_terminal {α : Type} (response : LlmResponse α) (rawText : List Char) :
    ((extractSection response rawText).confidence = .medium ↔
      ∃ d, response = .parsed d) ∧
    ((response = .transportError ∨ response = .emptyContent ∨ response = .malformed) →
      extractSection response rawText =
        { data := none, confidence := .low, needsLlmFallback := false,
          rawText := some rawText }) ∧
    (extractSection response rawText).needsLlmFallback = false ∧
    (∀ d, response = .parsed d → (extractSection response rawText).data = d) := by
  cases response with
  | transportError =>
    exact ⟨by simp [extractSection], fun _ => rfl, rfl, fun d h => by cases h⟩
  | emptyContent =>
    exact ⟨by simp [extractSection], fun _ => rfl, rfl, fun d h => by cases h⟩
  | malformed =>
    exact ⟨by simp [extractSection], fun _ => rfl, rfl, fun d h => by cases h⟩
  | parsed d =>
    refine ⟨by simp [extractSection], fun h => ?_, rfl, fun d2 h => by cases h; rfl⟩
    rcases h with h | h | h <;> cases h

/-- C6, witness: a malformed response produces the terminal LOW
result. -/
theorem c6_witness :
    extractSection (LlmResponse.malformed : LlmResponse ManpowerData) "x".data =
      { data := none, confidence := .low, needsLlmFallback := false,
        rawText := some "x".data } :=
  (c6_fallback_terminal LlmResponse.malformed "x".data).2.1 (Or.inr (Or.inr rfl))

/-- C7.  For every input text in which a section's header pattern does
not match, the Pattern Extractor returns for that section
`data = absent, confidence = LOW, needsFallback = false` — a missing
header never triggers the fallback stage, for each of the four
sections. -/
theorem c7_missing_header (pdfText : List Char) :
    (searchFrom true (headerRE .weather) pdfText 0 = none →
      extractWeather pdfText = absentSection) ∧
    (searchFrom true (headerRE .manpower) pdfText 0 = none →
      extractManpower pdfText = absentSection) ∧
    (searchFrom true (headerRE .workAreas) pdfText 0 = none →
      extractWorkAreas pdfText = absentSection) ∧
    (searchFrom true (headerRE .notes) pdfText 0 = none →
      extractNotes pdfText = absentSection) := by
  refine ⟨fun h => ?_, fun h => ?_, fun h => ?_, fun h => ?_⟩ <;>
    simp [extractWeather, extractManpower, extractWorkAreas, extractNotes,
      extractSectionText, h, jsFalsyOptStr]

/-- C7, witness: a text without any section header yields the absent
result for all four sections. -/
theorem c7_witness :
    extractWeather "hello world".data = absentSection ∧
    extractManpower "hello world".data = absentSection ∧
    extractWorkAreas "hello world".data = absentSection ∧
    extractNotes "hello world".data = absentSection :=
  ⟨(c7_missing_header _).1 (by decide), (c7_missing_header _).2.1 (by decide),
   (c7_missing_header _).2.2.1 (by decide), (c7_missing_header _).2.2.2 (by decide)⟩


/-- A nonempty list is not `isEmpty`. -/
theorem isEmpty_false_of_ne_nil {s : List Char} (hne : s ≠ []) : s.isEmpty = false := by
  cases s with
  | nil => exact absurd rfl hne
  | cons a t => rfl

/-- With a present, nonempty manpower section body, `extractManpower`
is its body parser. -/
theorem extractManpower_body_of {pdfText s : List Char}
    (hs : extractSectionText pdfText .manpower = some s) (hne : s ≠ []) :
    extractManpower pdfText = manpowerFromBody s := by
  unfold extractManpower
  rw [hs]
  simp [jsFalsyOptStr, isEmpty_false_of_ne_nil hne]

/-- With a present, nonempty weather section body, `extractWeather` is
its body parser. -/
theorem extractWeather_body_of {pdfText s : List Char}
    (hs : extractSectionText pdfText .weather = some s) (hne : s ≠ []) :
    extractWeather pdfText = weatherFromBody s := by
  unfold extractWeather
  rw [hs]
  simp [jsFalsyOptStr, isEmpty_false_of_ne_nil hne]

/-- C8.  For every manpower section body with at least one parsed crew
entry and no match of the `total:` pattern, `totalWorkers` is set to
the sum of the parsed crew counts. -/
theorem c8_total_from_crews (pdfText s : List Char)
    (hs : extractSectionText pdfText .manpower = some s) (hne : s ≠ [])
    (hTotal : searchFrom true totalRE s 0 = none) (hCrews : crewsOf s ≠ []) :
    ∃ mp, (extractManpower pdfText).data = some mp ∧ mp.crews = crewsOf s ∧
      mp.totalWorkers = jsSum ((crewsOf s).map Crew.count) := by
  rw [extractManpower_body_of hs hne]
  unfold manpowerFromBody
  rw [hTotal]
  dsimp only
  have hlen : decide (0 < (crewsOf s).length) = true := by
    simp [List.length_pos, hCrews]
  simp only [jsEqZero, hlen, Bool.and_true, if_true]
  exact ⟨_, rfl, rfl, by simp⟩

/-- C10.  An explicit total label whose value parses to 0 is treated as
if no total were present: with at least one parsed crew entry,
`totalWorkers` becomes the sum of the crew counts rather than 0. -/
theorem c10_zero_total_ignored (pdfText s : List Char)
    (hs : extractSectionText pdfText .manpower = some s) (hne : s ≠ [])
    (hTotal : (searchFrom true totalRE s 0).map
      (fun m => jsParseInt ((m.grp 1).getD [])) = some (some 0))
    (hCrews : crewsOf s ≠ []) :
    ∃ mp, (extractManpower pdfText).data = some mp ∧
      mp.totalWorkers = jsSum ((crewsOf s).map Crew.count) := by
  rw [extractManpower_body_of hs hne]
  unfold manpowerFromBody
  obtain ⟨m, hm, hz⟩ : ∃ m, searchFrom true totalRE s 0 = some m ∧
      jsParseInt ((m.grp 1).getD []) = some 0 := by
    cases hsf : searchFrom true totalRE s 0 with
    | none => rw [hsf] at hTotal; cases hTotal
    | some m => rw [hsf] at hTotal; exact ⟨m, rfl, by injection hTotal⟩
  rw [hm]
  dsimp only
  rw [hz]
  have hlen : decide (0 < (crewsOf s).length) = true := by
    simp [List.length_pos, hCrews]
  simp only [jsEqZero, hlen, Bool.and_true, if_true]
  exact ⟨_, rfl, by simp⟩

/-- C9, counterexample.  On the input `"Weather:"` the weather header
matches and nothing in the section parser can throw, yet the returned
weather data is absent: the trimmed section body is empty and the
falsy-string guard (`if (!sectionText)`) takes the absent branch.  This
refutes the claim that a matching header (with no exception) always
yields non-absent weather data. -/
theorem c9_counterexample :
    (searchFrom true (headerRE .weather) "Weather:".data 0).isSome = true ∧
    (extractWeather "Weather:".data).data = none := by decide

/-- C9, amended.  Whenever the weather header matches *and the trimmed
section body is nonempty*, the Pattern Extractor returns non-absent
weather data, with unparsed fields defaulted: conditions to the empty
string and the temperatures to 0.  Absent weather data arises only from
a missing header or an empty section body. -/
theorem c9_weather_defaults (pdfText s : List Char)
    (hs : extractSectionText pdfText .weather = some s) (hne : s ≠ []) :
    (extractWeather pdfText).data.isSome = true ∧
    (searchFrom true conditionsRE s 0 = none →
      (extractWeather pdfText).data.map WeatherData.conditions = some []) ∧
    (searchFrom true tempHighRE s 0 = none → searchFrom false tempRangeRE s 0 = none →
      (extractWeather pdfText).data.map WeatherData.temperatureHigh = some 0) ∧
    (searchFrom true tempLowRE s 0 = none → searchFrom false tempRangeRE s 0 = none →
      (extractWeather pdfText).data.map WeatherData.temperatureLow = some 0) := by
  rw [extractWeather_body_of hs hne]
  unfold weatherFromBody
  dsimp only
  refine ⟨by simp, fun hc => ?_, fun hh hr => ?_, fun hl hr => ?_⟩
  · rw [hc]
    simp
  · rw [hh, hr]
    simp [jsNumOrZero]
  · rw [hl, hr]
    simp [jsNumOrZero]

/-- C8 input: two crews, no total label. -/
def c8Text : List Char := "Manpower:\nCompany A: 5 workers\nCompany B: 3 workers".data

/-- The manpower section body of `c8Text`. -/
def c8Body : List Char := "Company A: 5 workers\nCompany B: 3 workers".data

/-- C8, witness: crews of 5 and 3 with no total label yield
`totalWorkers = 8`. -/
theorem c8_witness :
    (∃ mp, (extractManpower c8Text).data = some mp ∧ mp.crews = crewsOf c8Body ∧
      mp.totalWorkers = jsSum ((crewsOf c8Body).map Crew.count)) ∧
    jsSum ((crewsOf c8Body).map Crew.count) = some 8 ∧
    (crewsOf c8Body).length = 2 :=
  ⟨c8_total_from_crews c8Text c8Body (by decide) (by decide) (by decide) (by decide),
   by decide, by decide⟩

/-- C10 input: an explicit `Total: 0` plus one crew of 5. -/
def c10Text : List Char := "Manpower:\nTotal: 0\nAlpha Corp: 5 workers".data

/-- The manpower section body of `c10Text`. -/
def c10Body : List Char := "Total: 0\nAlpha Corp: 5 workers".data

/-- C10, witness: the explicit 0 total is replaced by the crew sum
5. -/
theorem c10_witness :
    (∃ mp, (extractManpower c10Text).data = some mp ∧
      mp.totalWorkers = jsSum ((crewsOf c10Body).map Crew.count)) ∧
    jsSum ((crewsOf c10Body).map Crew.count) = some 5 :=
  ⟨c10_zero_total_ignored c10Text c10Body (by decide) (by decide) (by decide) (by decide),
   by decide⟩

/-- C9 witness input: a weather section with unparseable prose. -/
def c9Text : List Char := "Weather:\nNice day today".data

/-- The weather section body of `c9Text`. -/
def c9Body : List Char := "Nice day today".data

/-- C9, witness: prose weather yields present data with all defaults
(empty conditions, zero temperatures). -/
theorem c9_witness :
    (extractWeather c9Text).data.map WeatherData.conditions = some [] ∧
    (extractWeather c9Text).data.map WeatherData.temperatureHigh = some 0 ∧
    (extractWeather c9Text).data.map WeatherData.temperatureLow = some 0 :=
  ⟨(c9_weather_defaults c9Text c9Body (by decide) (by decide)).2.1 (by decide),
   (c9_weather_defaults c9Text c9Body (by decide) (by decide)).2.2.1 (by decide) (by decide),
   (c9_weather_defaults c9Text c9Body (by decide) (by decide)).2.2.2 (by decide) (by decide)⟩

